import Mathlib

/-!
Shallow embedding of `commands/command_pre_push.go` (git-lfs pre-push hook):
the ref decoder `decodeRefs`, the missing-object reconciler
`prePushCheckForMissingObjects`, and the driver `prePushCommand`.

Collaborators from the `lfs` package and the `commands` helpers
(`ScanRefs`, `ObjectExistsOfSize`, `NewCheckQueue`/`NewCheckable`,
`NewUploadQueue`/`NewUploadable`, `Print`/`Exit`/`Panic`/`Error`) are not
part of this repository's sources; they are modelled as an explicit
environment `Env` following the collaborator contracts in the spec, and the
driver is instrumented to record the observable events (messages printed,
check jobs and upload jobs submitted, queues created) that the source's
side effects would produce.
-/

namespace PrePush

/-- A scanned LFS pointer (`lfs.WrappedPointer`): display name, content
oid, and byte size. -/
structure WrappedPointer where
  name : String
  oid : String
  size : Int
  deriving DecidableEq

/-- Modelled from the spec: the structured error (`lfs.WrappedError`)
returned by the upload-job factory and collected by the upload queue.
Carries a human-readable message, the unconditionally-fatal flag
(`wErr.Panic`), and, when the underlying cause is a
`*lfs.CleanedPointerError`, the oid of the cleaned pointer. -/
structure WrappedError where
  message : String
  panicFlag : Bool
  cleanedPointerOid : Option String
  deriving DecidableEq

/-- How the run terminates: a normal return (process exit status 0), an
explicit `os.Exit code`, a fatal `Exit` helper call printing a message, or
a fatal `Panic` helper call printing a message. -/
inductive Outcome where
  | ok
  | exit (code : Nat)
  | exitMsg (msg : String)
  | panicked (msg : String)
  deriving DecidableEq

/-- Modelled from the spec: the external collaborators of the hook, which
live outside this repository's sources. `scanRefs` is the pointer scanner;
`objectExistsOfSize` the local-store existence check; `checkFails p` says
whether the remote existence check job for `p` fails (the batch checker
exposes one structured failure per failed check, carrying that object's
oid and name); `newUploadable oid name` returns `none` on success or the
construction error; `uploadError oid name` is the collected outcome of a
submitted upload job (`none` = success); `debugging` is the global
verbosity toggle. -/
structure Env where
  scanRefs : String → String → Except String (List WrappedPointer)
  objectExistsOfSize : String → Int → Bool
  checkFails : WrappedPointer → Bool
  newUploadable : String → String → Option WrappedError
  uploadError : String → String → Option WrappedError
  debugging : Bool

/-- `prePushDeleteBranch = "(delete)"`. -/
def prePushDeleteBranch : String := "(delete)"

/-- `fmt.Sprintf(prePushMissingErrMsg, name, oid)`: the fixed
missing-object message template applied to a name and an oid. -/
def prePushMissingErrMsg (name oid : String) : String :=
  name ++ " is an LFS pointer to " ++ oid ++
    ", which does not exist in .git/lfs/objects.\n\nRun \x27git lfs fsck\x27 to verify Git LFS objects."

/-- The advisory printed when the hook is run with no arguments. -/
def hookMissingArgsMsg : String :=
  "This should be run through Git\x27s pre-push hook.  Run \x60git lfs update\x60 to install it."

/-- `strings.TrimSpace` on the character list: drop leading and trailing
whitespace. -/
def trimChars (l : List Char) : List Char :=
  ((l.dropWhile Char.isWhitespace).reverse.dropWhile Char.isWhitespace).reverse

/-- `strings.Split(s, " ")` on the character list: all substrings between
single-space separators, empties kept; the empty input yields one empty
token. -/
def splitOnSpace : List Char → List String
  | [] => [""]
  | c :: rest =>
    match splitOnSpace rest with
    | [] => []
    | s :: ss => if c = ' ' then "" :: s :: ss else String.mk (c :: s.data) :: ss

/-- `decodeRefs`: split the trimmed stdin line on single spaces; token 1
(when present) is the left endpoint, token 3 (when present) prefixed with
`^` is the right endpoint. -/
def decodeRefs (input : String) : String × String :=
  let refs := splitOnSpace (trimChars input.data)
  let left := refs.getD 1 ""
  let right := if refs.length > 3 then "^" ++ refs.getD 3 "" else ""
  (left, right)

/-- Insertion into the `skipObjects` set (`skipObjects[pointer.Oid] =
struct\x7b\x7d\x7b\x7d` on a Go map: membership semantics). -/
def insertOid (s : List String) (oid : String) : List String :=
  if oid ∈ s then s else s ++ [oid]

/-- The `skipObjects` map built while filtering locally-missing pointers:
the set of their oids. -/
def buildSkipObjects (missing : List WrappedPointer) : List String :=
  missing.foldl (fun s p => insertOid s p.oid) []

/-- The aggregate reconciliation-failure message: for each failing check
job, the missing-object template applied to its name and oid, followed by
a newline (`combinedMsg.WriteString` loop). -/
def combinedMissingMsg : List WrappedPointer → String
  | [] => ""
  | p :: rest => prePushMissingErrMsg p.name p.oid ++ "\n" ++ combinedMissingMsg rest

/-- Observable result of `prePushCheckForMissingObjects`: the returned
`(skipObjects, err)` pair (`none` models Go's `nil` map / `nil` error),
plus the recorded events: local existence checks performed, the check
queue created (`NewCheckQueue` arguments: job count, aggregate missing
size, dry-run flag), and the check jobs added to it. -/
structure CheckOutcome where
  skipObjects : Option (List String)
  err : Option String
  localChecks : List (String × Int)
  checkQueue : Option (Nat × Int × Bool)
  checkJobs : List WrappedPointer
  deriving DecidableEq

/-- `prePushCheckForMissingObjects`: filter the pointers through the local
existence check, accumulating the locally-missing subset, its aggregate
size and the skip-set of its oids; if nothing is missing return
`(nil, nil)`; otherwise run one remote check job per missing pointer
through a check queue created with dry-run hard-coded `false`, and either
return the skip-set (no failures) or `nil` plus the aggregate
missing-object error (some failures). -/
def prePushCheckForMissingObjects (env : Env) (pointers : List WrappedPointer) : CheckOutcome :=
  let missingLocalObjects := pointers.filter (fun p => !(env.objectExistsOfSize p.oid p.size))
  let missingSize := (missingLocalObjects.map (fun p => p.size)).sum
  let skipObjects := buildSkipObjects missingLocalObjects
  let localChecks := pointers.map (fun p => (p.oid, p.size))
  if missingLocalObjects = [] then
    { skipObjects := none, err := none, localChecks := localChecks,
      checkQueue := none, checkJobs := [] }
  else
    let failures := missingLocalObjects.filter (fun p => env.checkFails p)
    if failures = [] then
      { skipObjects := some skipObjects, err := none, localChecks := localChecks,
        checkQueue := some (missingLocalObjects.length, missingSize, false),
        checkJobs := missingLocalObjects }
    else
      { skipObjects := none, err := some (combinedMissingMsg failures),
        localChecks := localChecks,
        checkQueue := some (missingLocalObjects.length, missingSize, false),
        checkJobs := missingLocalObjects }

/-- The per-pointer loop of `prePushCommand`: in dry-run mode print
`push <name>` and continue; otherwise skip pointers whose oid is in the
skip-set; otherwise build the upload job, aborting the whole run on a
construction error (`Exit` with the missing-object template on a
cleaned-pointer cause; `Panic` when debugging or the error is marked
fatal; `Exit` with the summary otherwise), and submit the job.
Returns (messages printed, jobs submitted, abort outcome if any);
contributions of pointers before an abort are kept. -/
def processPointers (env : Env) (dryRun : Bool) (skip : List String) :
    List WrappedPointer → List String × List (String × String) × Option Outcome
  | [] => ([], [], none)
  | p :: rest =>
    if dryRun then
      let res := processPointers env dryRun skip rest
      (("push " ++ p.name) :: res.1, res.2.1, res.2.2)
    else if p.oid ∈ skip then
      processPointers env dryRun skip rest
    else
      match env.newUploadable p.oid p.name with
      | some wErr =>
        match wErr.cleanedPointerOid with
        | some cpOid => ([], [], some (Outcome.exitMsg (prePushMissingErrMsg p.name cpOid)))
        | none =>
          if env.debugging || wErr.panicFlag then
            ([], [], some (Outcome.panicked wErr.message))
          else
            ([], [], some (Outcome.exitMsg wErr.message))
      | none =>
        let res := processPointers env dryRun skip rest
        (res.1, (p.oid, p.name) :: res.2.1, res.2.2)

/-- Observable result of one `prePushCommand` run: final outcome, messages
printed in order, the `ScanRefs` call (if any) with its arguments, the
local existence checks performed, the check queue created and check jobs
submitted, the upload queue created (`NewUploadQueue` arguments: pointer
count, total size, dry-run flag) and the upload jobs submitted. -/
structure RunResult where
  outcome : Outcome
  printed : List String
  scanCalled : Option (String × String)
  localChecks : List (String × Int)
  checkQueue : Option (Nat × Int × Bool)
  checkJobs : List WrappedPointer
  uploadQueue : Option (Nat × Int × Bool)
  uploadJobs : List (String × String)
  deriving DecidableEq

/-- The part of `prePushCommand` from the `totalSize` computation on,
after the scanner has returned `pointers` (`lr` is the decoded ref pair,
recorded as the scanner call): compute the total size; unless in dry-run
mode run the reconciliation pre-flight, aborting via `Panic` on a
reconciliation error; create the upload queue; run the per-pointer loop;
then (not in dry-run mode) drain the queue, report every collected upload
error, and `os.Exit(2)` if there was at least one. -/
def prePushAfterScan (env : Env) (dryRun : Bool) (pointers : List WrappedPointer)
    (lr : String × String) : RunResult :=
  let totalSize := (pointers.map (fun p => p.size)).sum
  if dryRun then
    let res := processPointers env true [] pointers
    { outcome := Outcome.ok, printed := res.1, scanCalled := some lr,
      localChecks := [], checkQueue := none, checkJobs := [],
      uploadQueue := some (pointers.length, totalSize, true),
      uploadJobs := res.2.1 }
  else
    let chk := prePushCheckForMissingObjects env pointers
    match chk.err with
    | some msg =>
      { outcome := Outcome.panicked msg, printed := [], scanCalled := some lr,
        localChecks := chk.localChecks, checkQueue := chk.checkQueue,
        checkJobs := chk.checkJobs, uploadQueue := none, uploadJobs := [] }
    | none =>
      let skip := chk.skipObjects.getD []
      let res := processPointers env false skip pointers
      match res.2.2 with
      | some o =>
        { outcome := o, printed := res.1, scanCalled := some lr,
          localChecks := chk.localChecks, checkQueue := chk.checkQueue,
          checkJobs := chk.checkJobs,
          uploadQueue := some (pointers.length, totalSize, false),
          uploadJobs := res.2.1 }
      | none =>
        let errs := res.2.1.filterMap (fun j => env.uploadError j.1 j.2)
        if errs = [] then
          { outcome := Outcome.ok, printed := res.1, scanCalled := some lr,
            localChecks := chk.localChecks, checkQueue := chk.checkQueue,
            checkJobs := chk.checkJobs,
            uploadQueue := some (pointers.length, totalSize, false),
            uploadJobs := res.2.1 }
        else
          { outcome := Outcome.exit 2,
            printed := res.1 ++ errs.map (fun e => e.message),
            scanCalled := some lr,
            localChecks := chk.localChecks, checkQueue := chk.checkQueue,
            checkJobs := chk.checkJobs,
            uploadQueue := some (pointers.length, totalSize, false),
            uploadJobs := res.2.1 }

/-- `prePushCommand`: with no arguments, print the advisory and
`os.Exit(1)`; with empty stdin, return; decode the refs and return if the
left endpoint equals the branch-deletion sentinel; scan the ref range
(`Panic` on a scan error); then proceed as `prePushAfterScan`. -/
def prePushCommand (env : Env) (dryRun : Bool) (args : List String) (stdin : String) : RunResult :=
  if args = [] then
    { outcome := Outcome.exit 1, printed := [hookMissingArgsMsg], scanCalled := none,
      localChecks := [], checkQueue := none, checkJobs := [],
      uploadQueue := none, uploadJobs := [] }
  else if stdin = "" then
    { outcome := Outcome.ok, printed := [], scanCalled := none,
      localChecks := [], checkQueue := none, checkJobs := [],
      uploadQueue := none, uploadJobs := [] }
  else
    let lr := decodeRefs stdin
    if lr.1 = prePushDeleteBranch then
      { outcome := Outcome.ok, printed := [], scanCalled := none,
        localChecks := [], checkQueue := none, checkJobs := [],
        uploadQueue := none, uploadJobs := [] }
    else
      match env.scanRefs lr.1 lr.2 with
      | Except.error _ =>
        { outcome := Outcome.panicked "Error scanning for Git LFS files",
          printed := [], scanCalled := some lr,
          localChecks := [], checkQueue := none, checkJobs := [],
          uploadQueue := none, uploadJobs := [] }
      | Except.ok pointers => prePushAfterScan env dryRun pointers lr

/-- `needle` occurs as a contiguous substring of `hay`. -/
def strContains (needle hay : String) : Prop :=
  ∃ s₁ s₂, hay = s₁ ++ needle ++ s₂

/-! Concrete fixtures: a typical stdin line and pointers for the spec's
end-to-end scenarios, plus environments instantiating the collaborator
contracts in various ways. -/

/-- A typical pre-push stdin line. -/
def refsLine : String := "refs/heads/main abc123 refs/heads/main def456"

/-- Scenario A pointer: present locally. -/
def ptrA : WrappedPointer := ⟨"file.bin", "aaa", 100⟩

/-- Scenario B pointer: missing locally, present remotely. -/
def ptrB : WrappedPointer := ⟨"big.bin", "bbb", 500⟩

/-- Scenario C pointer: missing locally and remotely. -/
def ptrC : WrappedPointer := ⟨"gone.bin", "ccc", 10⟩

/-- Environment where the scanner finds nothing and everything succeeds. -/
def envBase : Env where
  scanRefs := fun _ _ => Except.ok []
  objectExistsOfSize := fun _ _ => true
  checkFails := fun _ => false
  newUploadable := fun _ _ => none
  uploadError := fun _ _ => none
  debugging := false

/-- Environment for scenario C: one pointer, missing locally, and its
remote existence check fails. -/
def envMissing : Env :=
  { envBase with
    scanRefs := fun _ _ => Except.ok [ptrC]
    objectExistsOfSize := fun _ _ => false
    checkFails := fun _ => true }

/-- Environment for scenario B: one pointer, missing locally, confirmed
present remotely. -/
def envSkipRemote : Env :=
  { envBase with
    scanRefs := fun _ _ => Except.ok [ptrB]
    objectExistsOfSize := fun _ _ => false }

/-- Environment with two pointers where only `ptrB` is locally missing
(and confirmed remote-present), so its oid lands in the skip-set. -/
def envTwoOneSkipped : Env :=
  { envBase with
    scanRefs := fun _ _ => Except.ok [ptrA, ptrB]
    objectExistsOfSize := fun oid _ => oid ≠ "bbb" }

/-- A construction error whose cause is a cleaned-pointer error for oid
`ddd`. -/
def wErrCleaned : WrappedError := ⟨"pointer not produced", false, some "ddd"⟩

/-- Environment where building the upload job for `ptrC` fails with a
cleaned-pointer cause. -/
def envCleaned : Env :=
  { envBase with
    scanRefs := fun _ _ => Except.ok [ptrA, ptrC]
    newUploadable := fun oid _ => if oid = "ccc" then some wErrCleaned else none }

/-- A non-fatal upload failure record. -/
def wErrUpload : WrappedError := ⟨"upload failed: big.bin", false, none⟩

/-- Environment for scenario D: both pointers present locally, the upload
of `ptrB` fails non-fatally. -/
def envUploadErr : Env :=
  { envBase with
    scanRefs := fun _ _ => Except.ok [ptrA, ptrB]
    uploadError := fun oid _ => if oid = "bbb" then some wErrUpload else none }

/-- A one-token (malformed) stdin line. -/
def malformedLine : String := "junk"

/-- The stdin line git sends for a branch-deletion push, per the format
documented on `prePushCommand` itself: local ref `(delete)`, zero local
sha1, remote ref, remote sha1. -/
def deleteLine : String :=
  "(delete) 0000000000000000000000000000000000000000 refs/heads/topic 1234567890123456789012345678901234567890"

/-! Helper lemmas about the embedded definitions. -/

theorem mem_insertOid (s : List String) (o x : String) :
    x ∈ insertOid s o ↔ x ∈ s ∨ x = o := by
  by_cases h : o ∈ s
  · simp only [insertOid, if_pos h]
    exact ⟨Or.inl, fun hx => hx.elim id (fun hxo => hxo ▸ h)⟩
  · simp [insertOid, if_neg h, List.mem_append]

theorem mem_foldl_insertOid (l : List WrappedPointer) (acc : List String) (x : String) :
    x ∈ l.foldl (fun s p => insertOid s p.oid) acc ↔ x ∈ acc ∨ ∃ p ∈ l, p.oid = x := by
  induction l generalizing acc with
  | nil => simp
  | cons p rest ih =>
    rw [List.foldl_cons, ih, mem_insertOid]
    simp only [List.mem_cons]
    constructor
    · rintro (⟨hx | rfl⟩ | ⟨q, hq, rfl⟩)
      · exact Or.inl hx
      · exact Or.inr ⟨p, Or.inl rfl, rfl⟩
      · exact Or.inr ⟨q, Or.inr hq, rfl⟩
    · rintro (hx | ⟨q, hq | hq, rfl⟩)
      · exact Or.inl (Or.inl hx)
      · subst hq; exact Or.inl (Or.inr rfl)
      · exact Or.inr ⟨q, hq, rfl⟩

theorem mem_buildSkipObjects (missing : List WrappedPointer) (x : String) :
    x ∈ buildSkipObjects missing ↔ ∃ p ∈ missing, p.oid = x := by
  unfold buildSkipObjects
  rw [mem_foldl_insertOid]
  simp

theorem strContains_combined (p : WrappedPointer) (l : List WrappedPointer) (hp : p ∈ l) :
    strContains (prePushMissingErrMsg p.name p.oid) (combinedMissingMsg l) := by
  induction l with
  | nil => cases hp
  | cons q rest ih =>
    rcases List.mem_cons.mp hp with rfl | hmem
    · refine ⟨"", "\n" ++ combinedMissingMsg rest, ?_⟩
      simp only [combinedMissingMsg]
      rw [String.append_assoc]
      rfl
    · obtain ⟨s₁, s₂, hc⟩ := ih hmem
      refine ⟨prePushMissingErrMsg q.name q.oid ++ "\n" ++ s₁, s₂, ?_⟩
      simp only [combinedMissingMsg, hc, String.append_assoc]

theorem processPointers_dry (env : Env) (skip : List String) (l : List WrappedPointer) :
    processPointers env true skip l = (l.map (fun p => "push " ++ p.name), [], none) := by
  induction l with
  | nil => rfl
  | cons p rest ih => simp [processPointers, ih]

theorem processPointers_printed_nil (env : Env) (skip : List String) (l : List WrappedPointer) :
    (processPointers env false skip l).1 = [] := by
  induction l with
  | nil => rfl
  | cons p rest ih =>
    by_cases hs : p.oid ∈ skip
    · simp [processPointers, hs, ih]
    · cases hn : env.newUploadable p.oid p.name with
      | none => simp [processPointers, hs, hn, ih]
      | some w =>
        cases hw : w.cleanedPointerOid with
        | some c => simp [processPointers, hs, hn, hw]
        | none =>
          by_cases hd : env.debugging || w.panicFlag <;>
            simp [processPointers, hs, hn, hw, hd]

theorem processPointers_jobs_not_skipped (env : Env) (skip : List String)
    (l : List WrappedPointer) :
    ∀ j ∈ (processPointers env false skip l).2.1, j.1 ∉ skip := by
  induction l with
  | nil => intro j hj; cases hj
  | cons p rest ih =>
    intro j hj
    by_cases hs : p.oid ∈ skip
    · simp only [processPointers, Bool.false_eq_true, if_false, if_pos hs] at hj
      exact ih j hj
    · cases hn : env.newUploadable p.oid p.name with
      | none =>
        simp only [processPointers, Bool.false_eq_true, if_false, if_neg hs, hn] at hj
        rcases List.mem_cons.mp hj with rfl | hj'
        · exact hs
        · exact ih j hj'
      | some w =>
        cases hw : w.cleanedPointerOid with
        | some c =>
          simp only [processPointers, Bool.false_eq_true, if_false, if_neg hs, hn, hw] at hj
          cases hj
        | none =>
          by_cases hd : env.debugging || w.panicFlag <;>
            simp only [processPointers, Bool.false_eq_true, if_false, if_neg hs, hn, hw, hd] at hj <;>
            simp at hj

theorem processPointers_no_abort (env : Env) (skip : List String) (l : List WrappedPointer)
    (h : ∀ p ∈ l, p.oid ∉ skip → env.newUploadable p.oid p.name = none) :
    (processPointers env false skip l).2.2 = none := by
  induction l with
  | nil => rfl
  | cons p rest ih =>
    have ih' := ih (fun q hq => h q (List.mem_cons_of_mem p hq))
    by_cases hs : p.oid ∈ skip
    · simp [processPointers, hs, ih']
    · simp [processPointers, hs, h p (List.mem_cons_self p rest) hs, ih']

theorem processPointers_append (env : Env) (skip : List String)
    (l₁ l₂ : List WrappedPointer) (h : (processPointers env false skip l₁).2.2 = none) :
    processPointers env false skip (l₁ ++ l₂) =
      ((processPointers env false skip l₁).1 ++ (processPointers env false skip l₂).1,
       (processPointers env false skip l₁).2.1 ++ (processPointers env false skip l₂).2.1,
       (processPointers env false skip l₂).2.2) := by
  induction l₁ with
  | nil => simp [processPointers]
  | cons p rest ih =>
    by_cases hs : p.oid ∈ skip
    · simp only [processPointers, Bool.false_eq_true, if_false, if_pos hs, List.cons_append] at h ⊢
      exact ih h
    · cases hn : env.newUploadable p.oid p.name with
      | none =>
        simp only [processPointers, Bool.false_eq_true, if_false, if_neg hs, hn,
          List.cons_append, List.append_eq] at h ⊢
        rw [ih h]
      | some w =>
        cases hw : w.cleanedPointerOid with
        | some c =>
          simp only [processPointers, Bool.false_eq_true, if_false, if_neg hs, hn, hw] at h
          cases h
        | none =>
          by_cases hd : env.debugging || w.panicFlag <;>
            simp only [processPointers, Bool.false_eq_true, if_false, if_neg hs, hn, hw, hd] at h <;>
            simp at h

theorem prePushCommand_eq (env : Env) (dryRun : Bool) (args : List String) (stdin : String)
    (pointers : List WrappedPointer)
    (h1 : args ≠ []) (h2 : stdin ≠ "")
    (h3 : (decodeRefs stdin).1 ≠ prePushDeleteBranch)
    (h4 : env.scanRefs (decodeRefs stdin).1 (decodeRefs stdin).2 = Except.ok pointers) :
    prePushCommand env dryRun args stdin = prePushAfterScan env dryRun pointers (decodeRefs stdin) := by
  simp only [prePushCommand, if_neg h1, if_neg h2, if_neg h3, h4]

theorem check_queue_dryRun_false (env : Env) (pointers : List WrappedPointer)
    (q : Nat × Int × Bool)
    (h : (prePushCheckForMissingObjects env pointers).checkQueue = some q) :
    q.2.2 = false := by
  simp only [prePushCheckForMissingObjects] at h
  split at h
  · cases h
  · split at h <;> (cases h; rfl)

theorem check_err_of_failures (env : Env) (pointers : List WrappedPointer)
    (h : (pointers.filter (fun p => !(env.objectExistsOfSize p.oid p.size))).filter
          (fun p => env.checkFails p) ≠ []) :
    (prePushCheckForMissingObjects env pointers).err =
      some (combinedMissingMsg
        ((pointers.filter (fun p => !(env.objectExistsOfSize p.oid p.size))).filter
          (fun p => env.checkFails p))) := by
  have hm : pointers.filter (fun p => !(env.objectExistsOfSize p.oid p.size)) ≠ [] := by
    intro hnil
    exact h (by rw [hnil]; rfl)
  simp only [prePushCheckForMissingObjects, if_neg hm, if_neg h]

theorem prePushAfterScan_err (env : Env) (pointers : List WrappedPointer)
    (lr : String × String) (msg : String)
    (h : (prePushCheckForMissingObjects env pointers).err = some msg) :
    prePushAfterScan env false pointers lr =
      { outcome := Outcome.panicked msg, printed := [], scanCalled := some lr,
        localChecks := (prePushCheckForMissingObjects env pointers).localChecks,
        checkQueue := (prePushCheckForMissingObjects env pointers).checkQueue,
        checkJobs := (prePushCheckForMissingObjects env pointers).checkJobs,
        uploadQueue := none, uploadJobs := [] } := by
  simp only [prePushAfterScan, Bool.false_eq_true, if_false, h]

theorem prePushAfterScan_abort (env : Env) (pointers : List WrappedPointer)
    (lr : String × String) (o : Outcome)
    (he : (prePushCheckForMissingObjects env pointers).err = none)
    (ha : (processPointers env false
            ((prePushCheckForMissingObjects env pointers).skipObjects.getD []) pointers).2.2
          = some o) :
    prePushAfterScan env false pointers lr =
      { outcome := o,
        printed := (processPointers env false
          ((prePushCheckForMissingObjects env pointers).skipObjects.getD []) pointers).1,
        scanCalled := some lr,
        localChecks := (prePushCheckForMissingObjects env pointers).localChecks,
        checkQueue := (prePushCheckForMissingObjects env pointers).checkQueue,
        checkJobs := (prePushCheckForMissingObjects env pointers).checkJobs,
        uploadQueue := some (pointers.length, (pointers.map (fun p => p.size)).sum, false),
        uploadJobs := (processPointers env false
          ((prePushCheckForMissingObjects env pointers).skipObjects.getD []) pointers).2.1 } := by
  simp only [prePushAfterScan, Bool.false_eq_true, if_false, he, ha]

theorem prePushAfterScan_done (env : Env) (pointers : List WrappedPointer)
    (lr : String × String)
    (he : (prePushCheckForMissingObjects env pointers).err = none)
    (ha : (processPointers env false
            ((prePushCheckForMissingObjects env pointers).skipObjects.getD []) pointers).2.2
          = none) :
    prePushAfterScan env false pointers lr =
      (if ((processPointers env false
            ((prePushCheckForMissingObjects env pointers).skipObjects.getD []) pointers).2.1.filterMap
              (fun j => env.uploadError j.1 j.2)) = [] then
        { outcome := Outcome.ok,
          printed := (processPointers env false
            ((prePushCheckForMissingObjects env pointers).skipObjects.getD []) pointers).1,
          scanCalled := some lr,
          localChecks := (prePushCheckForMissingObjects env pointers).localChecks,
          checkQueue := (prePushCheckForMissingObjects env pointers).checkQueue,
          checkJobs := (prePushCheckForMissingObjects env pointers).checkJobs,
          uploadQueue := some (pointers.length, (pointers.map (fun p => p.size)).sum, false),
          uploadJobs := (processPointers env false
            ((prePushCheckForMissingObjects env pointers).skipObjects.getD []) pointers).2.1 }
      else
        { outcome := Outcome.exit 2,
          printed := (processPointers env false
              ((prePushCheckForMissingObjects env pointers).skipObjects.getD []) pointers).1 ++
            ((processPointers env false
              ((prePushCheckForMissingObjects env pointers).skipObjects.getD []) pointers).2.1.filterMap
                (fun j => env.uploadError j.1 j.2)).map (fun e => e.message),
          scanCalled := some lr,
          localChecks := (prePushCheckForMissingObjects env pointers).localChecks,
          checkQueue := (prePushCheckForMissingObjects env pointers).checkQueue,
          checkJobs := (prePushCheckForMissingObjects env pointers).checkJobs,
          uploadQueue := some (pointers.length, (pointers.map (fun p => p.size)).sum, false),
          uploadJobs := (processPointers env false
            ((prePushCheckForMissingObjects env pointers).skipObjects.getD []) pointers).2.1 }) := by
  simp only [prePushAfterScan, Bool.false_eq_true, if_false, he, ha]

theorem prePushAfterScan_dryRun (env : Env) (pointers : List WrappedPointer)
    (lr : String × String) :
    prePushAfterScan env true pointers lr =
      { outcome := Outcome.ok,
        printed := pointers.map (fun p => "push " ++ p.name),
        scanCalled := some lr, localChecks := [], checkQueue := none, checkJobs := [],
        uploadQueue := some (pointers.length, (pointers.map (fun p => p.size)).sum, true),
        uploadJobs := [] } := by
  simp only [prePushAfterScan, if_true, processPointers_dry]

/-- Claim C10: whenever the reconciler returns a non-nil error (at least
one remote existence check failed), the skip-set it returns is nil, so a
failed reconciliation can never cause an object to be skipped. -/
theorem reconcile_error_returns_no_skip_set (env : Env) (pointers : List WrappedPointer)
    (msg : String)
    (h : (prePushCheckForMissingObjects env pointers).err = some msg) :
    (prePushCheckForMissingObjects env pointers).skipObjects = none := by
  by_cases hm : pointers.filter (fun p => !(env.objectExistsOfSize p.oid p.size)) = []
  · simp [prePushCheckForMissingObjects, hm] at h
  · by_cases hf : (pointers.filter (fun p => !(env.objectExistsOfSize p.oid p.size))).filter
        (fun p => env.checkFails p) = []
    · simp [prePushCheckForMissingObjects, hm, hf] at h
    · simp only [prePushCheckForMissingObjects, if_neg hm, if_neg hf]

/-- Witness for C10 at scenario C: the reconciler fails on `ptrC` and
returns no skip-set. -/
theorem reconcile_error_returns_no_skip_set_witness :
    (prePushCheckForMissingObjects envMissing [ptrC]).skipObjects = none :=
  reconcile_error_returns_no_skip_set envMissing [ptrC]
    (combinedMissingMsg [ptrC]) (by decide)

/-- Claim C3: whenever the reconciler returns a skip-set without error
(the nil map standing for the empty set), that skip-set contains exactly
the oids of the locally-missing pointers, and every locally-missing
pointer was submitted as a remote check job whose check did not fail
(confirmed present on the remote). The skip-set in this pure embedding is
a value, never mutated after construction. -/
theorem skip_set_exactly_missing_confirmed (env : Env) (pointers : List WrappedPointer)
    (h : (prePushCheckForMissingObjects env pointers).err = none) :
    (∀ oid, oid ∈ (prePushCheckForMissingObjects env pointers).skipObjects.getD [] ↔
       ∃ p ∈ pointers, p.oid = oid ∧ env.objectExistsOfSize p.oid p.size = false) ∧
    (∀ p ∈ pointers, env.objectExistsOfSize p.oid p.size = false →
       p ∈ (prePushCheckForMissingObjects env pointers).checkJobs ∧
       env.checkFails p = false) := by
  by_cases hm : pointers.filter (fun p => !(env.objectExistsOfSize p.oid p.size)) = []
  · have hnone : ∀ p ∈ pointers, ¬(env.objectExistsOfSize p.oid p.size = false) := by
      intro p hp hpe
      have : p ∈ pointers.filter (fun p => !(env.objectExistsOfSize p.oid p.size)) :=
        List.mem_filter.mpr ⟨hp, by simp [hpe]⟩
      rw [hm] at this
      cases this
    constructor
    · intro oid
      simp only [prePushCheckForMissingObjects, hm, if_pos, Option.getD_none, List.not_mem_nil,
        false_iff]
      rintro ⟨p, hp, rfl, hpe⟩
      exact hnone p hp hpe
    · intro p hp hpe
      exact absurd hpe (hnone p hp)
  · have hf : (pointers.filter (fun p => !(env.objectExistsOfSize p.oid p.size))).filter
        (fun p => env.checkFails p) = [] := by
      by_contra hf
      rw [check_err_of_failures env pointers hf] at h
      cases h
    have hjobs : (prePushCheckForMissingObjects env pointers).checkJobs =
        pointers.filter (fun p => !(env.objectExistsOfSize p.oid p.size)) := by
      simp only [prePushCheckForMissingObjects, if_neg hm, if_pos hf]
    have hskip : (prePushCheckForMissingObjects env pointers).skipObjects =
        some (buildSkipObjects (pointers.filter (fun p => !(env.objectExistsOfSize p.oid p.size)))) := by
      simp only [prePushCheckForMissingObjects, if_neg hm, if_pos hf]
    constructor
    · intro oid
      rw [hskip, Option.getD_some, mem_buildSkipObjects]
      constructor
      · rintro ⟨p, hp, rfl⟩
        obtain ⟨hpp, hpe⟩ := List.mem_filter.mp hp
        exact ⟨p, hpp, rfl, by simpa using hpe⟩
      · rintro ⟨p, hp, rfl, hpe⟩
        exact ⟨p, List.mem_filter.mpr ⟨hp, by simp [hpe]⟩, rfl⟩
    · intro p hp hpe
      have hpm : p ∈ pointers.filter (fun p => !(env.objectExistsOfSize p.oid p.size)) :=
        List.mem_filter.mpr ⟨hp, by simp [hpe]⟩
      refine ⟨by rw [hjobs]; exact hpm, ?_⟩
      by_contra hcf
      have : p ∈ (pointers.filter (fun p => !(env.objectExistsOfSize p.oid p.size))).filter
          (fun p => env.checkFails p) :=
        List.mem_filter.mpr ⟨hpm, by simpa using hcf⟩
      rw [hf] at this
      cases this

/-- Witness for C3 at scenario B: `ptrB` is locally missing and confirmed
remote-present; its oid is exactly the skip-set. -/
theorem skip_set_exactly_missing_confirmed_witness :
    (∀ oid, oid ∈ (prePushCheckForMissingObjects envSkipRemote [ptrB]).skipObjects.getD [] ↔
       ∃ p ∈ [ptrB], p.oid = oid ∧ envSkipRemote.objectExistsOfSize p.oid p.size = false) ∧
    (∀ p ∈ [ptrB], envSkipRemote.objectExistsOfSize p.oid p.size = false →
       p ∈ (prePushCheckForMissingObjects envSkipRemote [ptrB]).checkJobs ∧
       envSkipRemote.checkFails p = false) :=
  skip_set_exactly_missing_confirmed envSkipRemote [ptrB] (by decide)

/-- Claim C1: for every pointer set containing at least one locally-missing
object whose remote existence check fails, the (non-dry-run) run aborts
fatally before any upload job is submitted — no upload job is submitted
and the upload queue is never created — and the aggregate error message
contains, for each failing object, one line built from the fixed template
with that object's name and oid. -/
theorem missing_remote_aborts_before_upload (env : Env) (args : List String) (stdin : String)
    (pointers : List WrappedPointer)
    (h1 : args ≠ []) (h2 : stdin ≠ "")
    (h3 : (decodeRefs stdin).1 ≠ prePushDeleteBranch)
    (h4 : env.scanRefs (decodeRefs stdin).1 (decodeRefs stdin).2 = Except.ok pointers)
    (h5 : ∃ p ∈ pointers, env.objectExistsOfSize p.oid p.size = false ∧ env.checkFails p = true) :
    (∃ msg, (prePushCommand env false args stdin).outcome = Outcome.panicked msg ∧
       ∀ p ∈ pointers, env.objectExistsOfSize p.oid p.size = false → env.checkFails p = true →
         strContains (prePushMissingErrMsg p.name p.oid) msg) ∧
    (prePushCommand env false args stdin).uploadJobs = [] ∧
    (prePushCommand env false args stdin).uploadQueue = none := by
  obtain ⟨q, hq, hqm, hqf⟩ := h5
  have hqmem : q ∈ (pointers.filter (fun p => !(env.objectExistsOfSize p.oid p.size))).filter
      (fun p => env.checkFails p) :=
    List.mem_filter.mpr ⟨List.mem_filter.mpr ⟨hq, by simp [hqm]⟩, by simp [hqf]⟩
  have hfail : (pointers.filter (fun p => !(env.objectExistsOfSize p.oid p.size))).filter
      (fun p => env.checkFails p) ≠ [] := by
    intro h0
    rw [h0] at hqmem
    cases hqmem
  have herr := check_err_of_failures env pointers hfail
  rw [prePushCommand_eq env false args stdin pointers h1 h2 h3 h4,
    prePushAfterScan_err env pointers (decodeRefs stdin) _ herr]
  refine ⟨⟨_, rfl, ?_⟩, rfl, rfl⟩
  intro p hp hm hf
  exact strContains_combined p _
    (List.mem_filter.mpr ⟨List.mem_filter.mpr ⟨hp, by simp [hm]⟩, by simp [hf]⟩)

/-- Witness for C1 at scenario C: `ptrC` is missing locally and its remote
check fails; the run panics before any upload job and the message contains
the templated line for `gone.bin`/`ccc`. -/
theorem missing_remote_aborts_before_upload_witness :
    (∃ msg, (prePushCommand envMissing false ["origin"] refsLine).outcome = Outcome.panicked msg ∧
       ∀ p ∈ [ptrC], envMissing.objectExistsOfSize p.oid p.size = false →
         envMissing.checkFails p = true →
         strContains (prePushMissingErrMsg p.name p.oid) msg) ∧
    (prePushCommand envMissing false ["origin"] refsLine).uploadJobs = [] ∧
    (prePushCommand envMissing false ["origin"] refsLine).uploadQueue = none :=
  missing_remote_aborts_before_upload envMissing ["origin"] refsLine [ptrC]
    (by decide) (by decide) (by decide) rfl ⟨ptrC, by decide, by decide, by decide⟩

/-- Counterexample to C2 as stated ("for every invocation with a dry-run
flag set, the remote existence check batch is still executed"): a dry-run
invocation whose single pointer is locally missing performs no remote
existence check at all — no check queue is created and no check job is
submitted. -/
theorem dry_run_no_check_batch_counterexample :
    envMissing.objectExistsOfSize ptrC.oid ptrC.size = false ∧
    (prePushCommand envMissing true ["origin"] refsLine).checkQueue = none ∧
    (prePushCommand envMissing true ["origin"] refsLine).checkJobs = [] := by
  refine ⟨rfl, ?_, ?_⟩ <;> decide

theorem run_dryRun_no_checks (env : Env) (args : List String) (stdin : String) :
    (prePushCommand env true args stdin).checkQueue = none ∧
    (prePushCommand env true args stdin).checkJobs = [] ∧
    (prePushCommand env true args stdin).localChecks = [] := by
  by_cases h1 : args = []
  · simp [prePushCommand, h1]
  · by_cases h2 : stdin = ""
    · simp [prePushCommand, h1, h2]
    · by_cases h3 : (decodeRefs stdin).1 = prePushDeleteBranch
      · simp [prePushCommand, h1, h2, h3]
      · cases h4 : env.scanRefs (decodeRefs stdin).1 (decodeRefs stdin).2 with
        | error e => simp [prePushCommand, h1, h2, h3, h4]
        | ok pointers =>
          simp [prePushCommand, h1, h2, h3, h4, prePushAfterScan_dryRun]

theorem afterScan_checkQueue_param_false (env : Env) (d : Bool) (pointers : List WrappedPointer)
    (lr : String × String) (q : Nat × Int × Bool)
    (h : (prePushAfterScan env d pointers lr).checkQueue = some q) : q.2.2 = false := by
  cases d with
  | true =>
    rw [prePushAfterScan_dryRun] at h
    cases h
  | false =>
    cases he : (prePushCheckForMissingObjects env pointers).err with
    | some m =>
      rw [prePushAfterScan_err env pointers lr m he] at h
      exact check_queue_dryRun_false env pointers q h
    | none =>
      cases ha : (processPointers env false
          ((prePushCheckForMissingObjects env pointers).skipObjects.getD []) pointers).2.2 with
      | some o =>
        rw [prePushAfterScan_abort env pointers lr o he ha] at h
        exact check_queue_dryRun_false env pointers q h
      | none =>
        rw [prePushAfterScan_done env pointers lr he ha] at h
        split at h <;> exact check_queue_dryRun_false env pointers q h

/-- Claim C2 (amended): under a dry-run push the reconciler is never
invoked — no remote existence check queue is created and no check job is
submitted; and whenever a remote existence check queue is created (which
can only happen on a non-dry run), its dry-run parameter is hard-coded
`false`, i.e. the existence checks run with real network activity
enabled. -/
theorem check_batch_real_network_amended :
    (∀ (env : Env) (args : List String) (stdin : String),
       (prePushCommand env true args stdin).checkQueue = none ∧
       (prePushCommand env true args stdin).checkJobs = []) ∧
    (∀ (env : Env) (d : Bool) (args : List String) (stdin : String) (q : Nat × Int × Bool),
       (prePushCommand env d args stdin).checkQueue = some q → q.2.2 = false) := by
  constructor
  · intro env args stdin
    exact ⟨(run_dryRun_no_checks env args stdin).1, (run_dryRun_no_checks env args stdin).2.1⟩
  · intro env d args stdin q h
    by_cases h1 : args = []
    · simp [prePushCommand, h1] at h
    · by_cases h2 : stdin = ""
      · simp [prePushCommand, h1, h2] at h
      · by_cases h3 : (decodeRefs stdin).1 = prePushDeleteBranch
        · simp [prePushCommand, h1, h2, h3] at h
        · cases h4 : env.scanRefs (decodeRefs stdin).1 (decodeRefs stdin).2 with
          | error e => simp [prePushCommand, h1, h2, h3, h4] at h
          | ok pointers =>
            rw [prePushCommand_eq env d args stdin pointers h1 h2 h3 h4] at h
            exact afterScan_checkQueue_param_false env d pointers (decodeRefs stdin) q h

/-- Witness for the amended C2: a dry-run with a missing object creates no
check queue; a non-dry run that does create one (scenario B) creates it
with the dry-run parameter false. -/
theorem check_batch_real_network_amended_witness :
    ((prePushCommand envMissing true ["origin"] refsLine).checkQueue = none ∧
     (prePushCommand envMissing true ["origin"] refsLine).checkJobs = []) ∧
    (1, (500 : Int), false).2.2 = false :=
  ⟨check_batch_real_network_amended.1 envMissing ["origin"] refsLine,
   check_batch_real_network_amended.2 envSkipRemote false ["origin"] refsLine
     (1, (500 : Int), false) (by decide)⟩

/-- Claim C4: if, on a non-dry run whose pointers before `p` were
processed without abort, construction of the upload job for `p` fails with
a cleaned-pointer cause (the pointer points to content that was never
produced), the run stops immediately via the fatal `Exit` path with the
missing-object template applied to `p`'s name and the cleaned pointer's
oid, and no subsequent pointer is processed: the submitted upload jobs are
exactly those of the pointers before `p`. -/
theorem cleaned_pointer_stops_run (env : Env) (args : List String) (stdin : String)
    (pre post : List WrappedPointer) (p : WrappedPointer) (w : WrappedError) (cpOid : String)
    (skip : List String)
    (h1 : args ≠ []) (h2 : stdin ≠ "")
    (h3 : (decodeRefs stdin).1 ≠ prePushDeleteBranch)
    (h4 : env.scanRefs (decodeRefs stdin).1 (decodeRefs stdin).2 = Except.ok (pre ++ p :: post))
    (h5 : (prePushCheckForMissingObjects env (pre ++ p :: post)).err = none)
    (hskip : skip = (prePushCheckForMissingObjects env (pre ++ p :: post)).skipObjects.getD [])
    (h6 : (processPointers env false skip pre).2.2 = none)
    (h7 : p.oid ∉ skip)
    (h8 : env.newUploadable p.oid p.name = some w)
    (h9 : w.cleanedPointerOid = some cpOid) :
    (prePushCommand env false args stdin).outcome =
      Outcome.exitMsg (prePushMissingErrMsg p.name cpOid) ∧
    (prePushCommand env false args stdin).uploadJobs =
      (processPointers env false skip pre).2.1 := by
  subst hskip
  have hhead : processPointers env false
      ((prePushCheckForMissingObjects env (pre ++ p :: post)).skipObjects.getD [])
      (p :: post) = ([], [], some (Outcome.exitMsg (prePushMissingErrMsg p.name cpOid))) := by
    simp [processPointers, h7, h8, h9]
  have happ := processPointers_append env
    ((prePushCheckForMissingObjects env (pre ++ p :: post)).skipObjects.getD [])
    pre (p :: post) h6
  rw [hhead] at happ
  rw [prePushCommand_eq env false args stdin (pre ++ p :: post) h1 h2 h3 h4,
    prePushAfterScan_abort env (pre ++ p :: post) (decodeRefs stdin) _ h5 (by rw [happ])]
  exact ⟨rfl, by rw [happ]; simp⟩

/-- Witness for C4: with `ptrA` processed first, building the job for
`ptrC` fails with a cleaned-pointer cause for oid `ddd`; the run exits
with the templated message and only `ptrA`'s job was submitted. -/
theorem cleaned_pointer_stops_run_witness :
    (prePushCommand envCleaned false ["origin"] refsLine).outcome =
      Outcome.exitMsg (prePushMissingErrMsg ptrC.name "ddd") ∧
    (prePushCommand envCleaned false ["origin"] refsLine).uploadJobs =
      (processPointers envCleaned false [] [ptrA]).2.1 :=
  cleaned_pointer_stops_run envCleaned ["origin"] refsLine [ptrA] [] ptrC wErrCleaned "ddd" []
    (by decide) (by decide) (by decide) rfl (by decide) (by decide) (by decide) (by decide)
    (by decide) rfl

theorem afterScan_scanCalled (env : Env) (d : Bool) (pointers : List WrappedPointer)
    (lr : String × String) :
    (prePushAfterScan env d pointers lr).scanCalled = some lr := by
  cases d with
  | true => rw [prePushAfterScan_dryRun]
  | false =>
    cases he : (prePushCheckForMissingObjects env pointers).err with
    | some m => rw [prePushAfterScan_err env pointers lr m he]
    | none =>
      cases ha : (processPointers env false
          ((prePushCheckForMissingObjects env pointers).skipObjects.getD []) pointers).2.2 with
      | some o => rw [prePushAfterScan_abort env pointers lr o he ha]
      | none =>
        rw [prePushAfterScan_done env pointers lr he ha]
        split <;> rfl

theorem prePushCommand_scan_error (env : Env) (d : Bool) (args : List String) (stdin : String)
    (e : String)
    (h1 : args ≠ []) (h2 : stdin ≠ "")
    (h3 : (decodeRefs stdin).1 ≠ prePushDeleteBranch)
    (h4 : env.scanRefs (decodeRefs stdin).1 (decodeRefs stdin).2 = Except.error e) :
    prePushCommand env d args stdin =
      { outcome := Outcome.panicked "Error scanning for Git LFS files", printed := [],
        scanCalled := some (decodeRefs stdin), localChecks := [], checkQueue := none,
        checkJobs := [], uploadQueue := none, uploadJobs := [] } := by
  simp only [prePushCommand, if_neg h1, if_neg h2, if_neg h3, h4]

/-- Claim C9 (code bug): on the stdin line git sends for a branch deletion
— whose FIRST token is the sentinel `(delete)`, per the hook input format
documented on `prePushCommand` itself — the run does not terminate as a
no-op: `decodeRefs` yields token index 1 (the zero local sha1) as the
local endpoint, the sentinel comparison fails, and the scanner is invoked
on the zero sha1 instead of skipping all processing. -/
theorem delete_first_token_still_scans (env : Env) (d : Bool) :
    (prePushCommand env d ["origin"] deleteLine).scanCalled =
      some ("0000000000000000000000000000000000000000",
        "^1234567890123456789012345678901234567890") ∧
    (prePushCommand env d ["origin"] deleteLine).scanCalled ≠ none := by
  have hdec : decodeRefs deleteLine =
      ("0000000000000000000000000000000000000000",
       "^1234567890123456789012345678901234567890") := by decide
  have hmain : (prePushCommand env d ["origin"] deleteLine).scanCalled =
      some (decodeRefs deleteLine) := by
    cases h4 : env.scanRefs (decodeRefs deleteLine).1 (decodeRefs deleteLine).2 with
    | error e =>
      rw [prePushCommand_scan_error env d ["origin"] deleteLine e
        (by decide) (by decide) (by decide) h4]
    | ok pointers =>
      rw [prePushCommand_eq env d ["origin"] deleteLine pointers
        (by decide) (by decide) (by decide) h4]
      exact afterScan_scanCalled env d pointers (decodeRefs deleteLine)
  rw [hmain, hdec]
  exact ⟨rfl, by simp⟩

/-- Claim C5: the process exit status is 0 on success and on dry-run, 1
when the hook is invoked with no command-line arguments (before any other
processing: only the advisory is printed, nothing scanned, checked or
uploaded), and 2 when, after the upload pool drains, the collected per-job
error list is non-empty — and in that case every collected error message
is printed before exiting. -/
theorem exit_status_semantics :
    (∀ (env : Env) (d : Bool) (stdin : String),
       prePushCommand env d [] stdin =
         { outcome := Outcome.exit 1, printed := [hookMissingArgsMsg], scanCalled := none,
           localChecks := [], checkQueue := none, checkJobs := [],
           uploadQueue := none, uploadJobs := [] }) ∧
    (∀ (env : Env) (args : List String) (stdin : String) (pointers : List WrappedPointer),
       args ≠ [] → stdin ≠ "" → (decodeRefs stdin).1 ≠ prePushDeleteBranch →
       env.scanRefs (decodeRefs stdin).1 (decodeRefs stdin).2 = Except.ok pointers →
       (prePushCommand env true args stdin).outcome = Outcome.ok) ∧
    (∀ (env : Env) (args : List String) (stdin : String) (pointers : List WrappedPointer)
       (skip : List String),
       args ≠ [] → stdin ≠ "" → (decodeRefs stdin).1 ≠ prePushDeleteBranch →
       env.scanRefs (decodeRefs stdin).1 (decodeRefs stdin).2 = Except.ok pointers →
       (prePushCheckForMissingObjects env pointers).err = none →
       skip = (prePushCheckForMissingObjects env pointers).skipObjects.getD [] →
       (processPointers env false skip pointers).2.2 = none →
       (((processPointers env false skip pointers).2.1.filterMap
           (fun j => env.uploadError j.1 j.2) = [] →
          (prePushCommand env false args stdin).outcome = Outcome.ok) ∧
        ((processPointers env false skip pointers).2.1.filterMap
           (fun j => env.uploadError j.1 j.2) ≠ [] →
          (prePushCommand env false args stdin).outcome = Outcome.exit 2 ∧
          ∀ e ∈ (processPointers env false skip pointers).2.1.filterMap
              (fun j => env.uploadError j.1 j.2),
            e.message ∈ (prePushCommand env false args stdin).printed))) := by
  refine ⟨?_, ?_, ?_⟩
  · intro env d stdin
    simp [prePushCommand]
  · intro env args stdin pointers h1 h2 h3 h4
    rw [prePushCommand_eq env true args stdin pointers h1 h2 h3 h4, prePushAfterScan_dryRun]
  · intro env args stdin pointers skip h1 h2 h3 h4 h5 hskip hna
    subst hskip
    rw [prePushCommand_eq env false args stdin pointers h1 h2 h3 h4,
      prePushAfterScan_done env pointers (decodeRefs stdin) h5 hna]
    constructor
    · intro hempty
      rw [if_pos hempty]
    · intro hne
      rw [if_neg hne]
      refine ⟨rfl, fun e he => ?_⟩
      exact List.mem_append_right _ (List.mem_map_of_mem (fun e => e.message) he)

/-- Witness for C5: no arguments exits 1; a dry run exits 0; scenario D
(one upload fails non-fatally) exits 2. -/
theorem exit_status_semantics_witness :
    prePushCommand envBase false [] "x" =
      { outcome := Outcome.exit 1, printed := [hookMissingArgsMsg], scanCalled := none,
        localChecks := [], checkQueue := none, checkJobs := [],
        uploadQueue := none, uploadJobs := [] } ∧
    (prePushCommand envBase true ["origin"] refsLine).outcome = Outcome.ok ∧
    (prePushCommand envUploadErr false ["origin"] refsLine).outcome = Outcome.exit 2 :=
  ⟨exit_status_semantics.1 envBase false "x",
   exit_status_semantics.2.1 envBase ["origin"] refsLine []
     (by decide) (by decide) (by decide) rfl,
   ((exit_status_semantics.2.2 envUploadErr ["origin"] refsLine [ptrA, ptrB] []
       (by decide) (by decide) (by decide) rfl (by decide) (by decide) (by decide)).2
     (by decide)).1⟩

/-- Claim C6: on a non-dry run whose reconciliation succeeded, no upload
job is submitted for any pointer whose oid is in the skip-set, the
per-pointer loop prints no notice at all, a skipped pointer never causes
an error (if every non-skipped pointer constructs its job successfully the
loop never aborts), and every pointer, skipped or not, contributes its
size to the upload queue's aggregate total size exactly once. -/
theorem skip_set_not_uploaded_total_size (env : Env) (args : List String) (stdin : String)
    (pointers : List WrappedPointer) (skip : List String)
    (h1 : args ≠ []) (h2 : stdin ≠ "")
    (h3 : (decodeRefs stdin).1 ≠ prePushDeleteBranch)
    (h4 : env.scanRefs (decodeRefs stdin).1 (decodeRefs stdin).2 = Except.ok pointers)
    (h5 : (prePushCheckForMissingObjects env pointers).err = none)
    (hskip : skip = (prePushCheckForMissingObjects env pointers).skipObjects.getD []) :
    (∀ p ∈ pointers, p.oid ∈ skip →
       ∀ j ∈ (prePushCommand env false args stdin).uploadJobs, j.1 ≠ p.oid) ∧
    (processPointers env false skip pointers).1 = [] ∧
    ((∀ p ∈ pointers, p.oid ∉ skip → env.newUploadable p.oid p.name = none) →
       (processPointers env false skip pointers).2.2 = none) ∧
    (prePushCommand env false args stdin).uploadQueue =
      some (pointers.length, (pointers.map (fun p => p.size)).sum, false) := by
  subst hskip
  have hrun : (prePushCommand env false args stdin).uploadJobs =
      (processPointers env false
        ((prePushCheckForMissingObjects env pointers).skipObjects.getD []) pointers).2.1 ∧
      (prePushCommand env false args stdin).uploadQueue =
        some (pointers.length, (pointers.map (fun p => p.size)).sum, false) := by
    rw [prePushCommand_eq env false args stdin pointers h1 h2 h3 h4]
    cases ha : (processPointers env false
        ((prePushCheckForMissingObjects env pointers).skipObjects.getD []) pointers).2.2 with
    | some o =>
      rw [prePushAfterScan_abort env pointers (decodeRefs stdin) o h5 ha]
      exact ⟨rfl, rfl⟩
    | none =>
      rw [prePushAfterScan_done env pointers (decodeRefs stdin) h5 ha]
      by_cases he : ((processPointers env false
          ((prePushCheckForMissingObjects env pointers).skipObjects.getD []) pointers).2.1.filterMap
            (fun j => env.uploadError j.1 j.2)) = []
      · rw [if_pos he]
        exact ⟨rfl, rfl⟩
      · rw [if_neg he]
        exact ⟨rfl, rfl⟩
  refine ⟨?_, processPointers_printed_nil env _ pointers,
    processPointers_no_abort env _ pointers, hrun.2⟩
  intro p hp hpskip j hj
  rw [hrun.1] at hj
  intro hoid
  exact processPointers_jobs_not_skipped env _ pointers j hj (hoid ▸ hpskip)

/-- Witness for C6: `ptrB` is skipped (missing locally, present remotely)
while `ptrA` uploads; no job carries `ptrB`'s oid and the total size
counts both pointers. -/
theorem skip_set_not_uploaded_total_size_witness :
    (∀ p ∈ [ptrA, ptrB], p.oid ∈ ["bbb"] →
       ∀ j ∈ (prePushCommand envTwoOneSkipped false ["origin"] refsLine).uploadJobs,
         j.1 ≠ p.oid) ∧
    (processPointers envTwoOneSkipped false ["bbb"] [ptrA, ptrB]).1 = [] ∧
    ((∀ p ∈ [ptrA, ptrB], p.oid ∉ ["bbb"] →
        envTwoOneSkipped.newUploadable p.oid p.name = none) →
       (processPointers envTwoOneSkipped false ["bbb"] [ptrA, ptrB]).2.2 = none) ∧
    (prePushCommand envTwoOneSkipped false ["origin"] refsLine).uploadQueue =
      some (2, (600 : Int), false) :=
  skip_set_not_uploaded_total_size envTwoOneSkipped ["origin"] refsLine [ptrA, ptrB] ["bbb"]
    (by decide) (by decide) (by decide) rfl (by decide) (by decide)

/-- Claim C7: in dry-run mode no local-store existence check, no remote
existence check and no upload job occurs for any pointer, and exactly one
advisory `push <name>` message is printed per candidate pointer, so the
printed-message count equals the candidate count. -/
theorem dry_run_messages_no_work (env : Env) (args : List String) (stdin : String)
    (pointers : List WrappedPointer)
    (h1 : args ≠ []) (h2 : stdin ≠ "")
    (h3 : (decodeRefs stdin).1 ≠ prePushDeleteBranch)
    (h4 : env.scanRefs (decodeRefs stdin).1 (decodeRefs stdin).2 = Except.ok pointers) :
    (prePushCommand env true args stdin).printed =
      pointers.map (fun p => "push " ++ p.name) ∧
    (prePushCommand env true args stdin).printed.length = pointers.length ∧
    (prePushCommand env true args stdin).localChecks = [] ∧
    (prePushCommand env true args stdin).checkQueue = none ∧
    (prePushCommand env true args stdin).checkJobs = [] ∧
    (prePushCommand env true args stdin).uploadJobs = [] ∧
    (prePushCommand env true args stdin).outcome = Outcome.ok := by
  rw [prePushCommand_eq env true args stdin pointers h1 h2 h3 h4, prePushAfterScan_dryRun]
  exact ⟨rfl, by simp, rfl, rfl, rfl, rfl, rfl⟩

/-- Witness for C7: a dry run over two candidate pointers prints exactly
the two advisory messages and performs no checks or uploads. -/
theorem dry_run_messages_no_work_witness :
    (prePushCommand envTwoOneSkipped true ["origin"] refsLine).printed =
      [ptrA, ptrB].map (fun p => "push " ++ p.name) ∧
    (prePushCommand envTwoOneSkipped true ["origin"] refsLine).printed.length =
      [ptrA, ptrB].length ∧
    (prePushCommand envTwoOneSkipped true ["origin"] refsLine).localChecks = [] ∧
    (prePushCommand envTwoOneSkipped true ["origin"] refsLine).checkQueue = none ∧
    (prePushCommand envTwoOneSkipped true ["origin"] refsLine).checkJobs = [] ∧
    (prePushCommand envTwoOneSkipped true ["origin"] refsLine).uploadJobs = [] ∧
    (prePushCommand envTwoOneSkipped true ["origin"] refsLine).outcome = Outcome.ok :=
  dry_run_messages_no_work envTwoOneSkipped ["origin"] refsLine [ptrA, ptrB]
    (by decide) (by decide) (by decide) rfl

/-- Claim C8: for every valid 4-token input line the ref decoder returns
`(tokens[1], "^" ++ tokens[3])`; for empty input it returns `("", "")`;
for malformed input with fewer than 2 tokens the local endpoint is the
empty string; and — with the scanner contract modelled from the spec, that
an empty range scans to an empty pointer list rather than an error — such
a run completes as a no-op: exit 0, nothing checked, nothing uploaded. -/
theorem decode_refs_spec :
    (∀ (input t0 t1 t2 t3 : String),
       splitOnSpace (trimChars input.data) = [t0, t1, t2, t3] →
       decodeRefs input = (t1, "^" ++ t3)) ∧
    decodeRefs "" = ("", "") ∧
    (∀ input : String, (splitOnSpace (trimChars input.data)).length < 2 →
       (decodeRefs input).1 = "") ∧
    (∀ (env : Env) (args : List String) (stdin : String),
       args ≠ [] → stdin ≠ "" →
       (splitOnSpace (trimChars stdin.data)).length < 2 →
       env.scanRefs "" "" = Except.ok [] →
       (prePushCommand env false args stdin).outcome = Outcome.ok ∧
       (prePushCommand env false args stdin).checkJobs = [] ∧
       (prePushCommand env false args stdin).uploadJobs = []) := by
  have hshort : ∀ input : String, (splitOnSpace (trimChars input.data)).length < 2 →
      decodeRefs input = ("", "") := by
    intro input hlen
    unfold decodeRefs
    have hleft : (splitOnSpace (trimChars input.data)).getD 1 "" = "" :=
      List.getD_eq_default _ _ (by omega)
    have hright : ¬((splitOnSpace (trimChars input.data)).length > 3) := by omega
    simp only [hleft, if_neg hright]
  refine ⟨?_, by decide, ?_, ?_⟩
  · intro input t0 t1 t2 t3 h
    unfold decodeRefs
    rw [h]
    rfl
  · intro input hlen
    rw [hshort input hlen]
  · intro env args stdin h1 h2 hlen hscan
    have hdec := hshort stdin hlen
    have h3 : (decodeRefs stdin).1 ≠ prePushDeleteBranch := by
      rw [hdec]
      decide
    have h4 : env.scanRefs (decodeRefs stdin).1 (decodeRefs stdin).2 =
        Except.ok ([] : List WrappedPointer) := by
      rw [hdec]
      exact hscan
    rw [prePushCommand_eq env false args stdin [] h1 h2 h3 h4,
      prePushAfterScan_done env [] (decodeRefs stdin) rfl rfl]
    exact ⟨rfl, rfl, rfl⟩

/-- Witness for C8: the standard 4-token line decodes to the sha pair; the
one-token line `junk` decodes to an empty local endpoint and the run over
it is a no-op. -/
theorem decode_refs_spec_witness :
    decodeRefs refsLine = ("abc123", "^def456") ∧
    (decodeRefs malformedLine).1 = "" ∧
    ((prePushCommand envBase false ["origin"] malformedLine).outcome = Outcome.ok ∧
     (prePushCommand envBase false ["origin"] malformedLine).checkJobs = [] ∧
     (prePushCommand envBase false ["origin"] malformedLine).uploadJobs = []) :=
  ⟨decode_refs_spec.1 refsLine "refs/heads/main" "abc123" "refs/heads/main" "def456" (by decide),
   decode_refs_spec.2.2.1 malformedLine (by decide),
   decode_refs_spec.2.2.2 envBase ["origin"] malformedLine
     (by decide) (by decide) (by decide) rfl⟩

end PrePush
